import Mathlib

/-!
Verification of the `xlsform_orm` survey library against its specification.

This file is a shallow embedding of `src/xlsform_orm.py`: the entity layer
(`Logic`, `Choice`, `Range`, `Question`, `QuestionGroup`, `Survey`), the static
compatibility tables, the pydantic-v1 construction/validation pipeline, the
tree-to-table encoder (`items_to_dfs`, `prep_for_excel`, `Survey.get_dfs`) and
the table-to-tree decoder (`get_survey_args` with its helpers `link_choices`,
`group_items`, `drop_nan_dict`, `get_choice_dict`).

Modelling conventions, used throughout:
- Machine numbers are modelled as `Int`; no claim exercises non-integral or
  overflowing arithmetic.
- Fallible Python code (raised `ValidationError` / `ValueError` / `TypeError` /
  `KeyError`) is modelled as `Except String`.  pydantic v1 wraps `ValueError`,
  `TypeError` and `AssertionError` raised in validators into a
  `ValidationError`; every such exception is an `Except.error` here.  Error
  strings paraphrase the Python messages (quotes dropped).
- pydantic v1 does not validate default values, runs a field validator only
  when the field is supplied (no `always=True` is used in the source), and
  with `use_enum_values = True` hands the *value* string of a coerced enum to
  later validators.
- Pandas `NaN`/`None` cells are both modelled by `Cell.none`; the Excel
  write/read pair is modelled as the identity on the prepared tables.
-/

namespace XLSForm

/-- A `Choice` value: `{value: str, label: str}` (class `Choice`). -/
structure Choice where
  value : String
  label : String
deriving DecidableEq, Repr

/-- A validated `Logic` value (class `Logic`); with `use_enum_values`, `type`
is stored as a plain string (any string is accepted: the field is
`Union[LogicTypes, str]`, so unknown tokens fall through to `str`). -/
structure Logic where
  type : String
  expression : String
  message : Option String
deriving DecidableEq, Repr

/-- Construction of a `Logic`.  The only validator is `validate_message`,
which runs when `message` is supplied and clears it unless
`values["type"] == "constraint"`; when `message` is not supplied it stays at
its default `None`.  No validator ever requires `message`, so construction
with these three arguments always succeeds (the function is total). -/
def mkLogic (type expression : String) (message : Option String) : Logic :=
  let message : Option String :=
    match message with
    | none => none
    | some m => if type ≠ "constraint" then none else some m
  ⟨type, expression, message⟩

/-- A `Range` value (class `Range`); `start`/`end`/`step` are
`Union[int, float]`, modelled as `Int`. -/
structure RangeVal where
  start : Int
  «end» : Int
  step : Int
deriving DecidableEq, Repr

/-- The `GroupTypes` enum (members `group` and `repeat`). -/
inductive GroupTypes where
  | group
  | «repeat»
deriving DecidableEq, Repr

/-- The member names of `GroupTypes`, as used by `hasattr(GroupTypes, ...)`. -/
def groupTypeNames : List String := ["group", "repeat"]

/-- The Python value held by the `type` field of a `QuestionGroup`.  The field
is annotated `str` but its *default* is the raw enum member `GroupTypes.group`
(pydantic v1 does not validate defaults), and the root validator
`validate_repeat` can assign the raw member `GroupTypes.repeat`; so at runtime
the field holds either a `str` or a `GroupTypes` member. -/
inductive PyGroupType where
  | ofStr (s : String)
  | member (g : GroupTypes)
deriving DecidableEq, Repr

/-- `repeat_count` is `Optional[Union[int, str]]`. -/
inductive RepeatCount where
  | int (n : Int)
  | str (s : String)
deriving DecidableEq, Repr

/-- The `RESERVED_NAMES` table of the source, verbatim: a question `name` must
not be a member (`Question.validate_name`, case-sensitive list membership). -/
def RESERVED_NAMES : List String := [
  "A",
  "ABS",
  "ABSENT",
  "ACCESS",
  "ACCORDING",
  "ACCOUNT",
  "ACTIVATE",
  "ADA",
  "ADD",
  "ADMIN",
  "ADVISE",
  "AFTER",
  "ALL",
  "ALL_ROWS",
  "ALLOCATE",
  "ALLOW",
  "ALTER",
  "ANALYSE",
  "ANALYZE",
  "AND",
  "ANY",
  "ARCHIVE",
  "ARCHIVELOG",
  "ARE",
  "AREA",
  "ARRAY",
  "ARRAY_AGG",
  "ARRAY_MAX_CARDINALITY",
  "AS",
  "ASC",
  "ASENSITIVE",
  "ASSOCIATE",
  "ASUTIME",
  "ASYMMETRIC",
  "AT",
  "ATOMIC",
  "ATTRIBUTES",
  "AUDIT",
  "AUTHENTICATED",
  "AUTHORIZATION",
  "AUTOEXTEND",
  "AUTOMATIC",
  "AUX",
  "AUXILIARY",
  "AVG",
  "BACKUP",
  "BASE64",
  "BECOME",
  "BEFORE",
  "BEGIN",
  "BEGIN_FRAME",
  "BEGIN_PARTITION",
  "BERNOULLI",
  "BETWEEN",
  "BFILE",
  "BINARY",
  "BIT_LENGTH",
  "BITMAP",
  "BLOB",
  "BLOCK",
  "BLOCKED",
  "BODY",
  "BOM",
  "BOTH",
  "BREADTH",
  "BREAK",
  "BROWSE",
  "BUFFERPOOL",
  "BULK",
  "BY",
  "C",
  "CACHE",
  "CACHE_INSTANCES",
  "CALL",
  "CANCEL",
  "CAPTURE",
  "CARDINALITY",
  "CASCADE",
  "CASCADED",
  "CASE",
  "CAST",
  "CATALOG_NAME",
  "CCSID",
  "CEIL",
  "CEILING",
  "CFILE",
  "CHAINED",
  "CHANGE",
  "CHAR",
  "CHAR_CS",
  "CHAR_LENGTH",
  "CHARACTER",
  "CHARACTER_LENGTH",
  "CHARACTER_SET_CATALOG",
  "CHARACTER_SET_NAME",
  "CHARACTER_SET_SCHEMA",
  "CHARACTERS",
  "CHECK",
  "CHECKPOINT",
  "CHOOSE",
  "CHUNK",
  "CLASS_ORIGIN",
  "CLEAR",
  "CLOB",
  "CLONE",
  "CLOSE",
  "CLOSE_CACHED_OPEN_CURSORS",
  "CLUSTER",
  "CLUSTERED",
  "COALESCE",
  "COBOL",
  "COLLATE",
  "COLLATION",
  "COLLATION_CATALOG",
  "COLLATION_NAME",
  "COLLATION_SCHEMA",
  "COLLECT",
  "COLLECTION",
  "COLLID",
  "COLUMN",
  "COLUMN_NAME",
  "COLUMNS",
  "COMMAND_FUNCTION",
  "COMMAND_FUNCTION_CODE",
  "COMMENT",
  "COMMIT",
  "COMMITTED",
  "COMPATIBILITY",
  "COMPILE",
  "COMPLETE",
  "COMPOSITE_LIMIT",
  "COMPRESS",
  "COMPUTE",
  "CONCAT",
  "CONCURRENTLY",
  "CONDITION",
  "CONDITION_NUMBER",
  "CONNECT",
  "CONNECT_TIME",
  "CONNECTION",
  "CONNECTION_NAME",
  "CONSTRAINT",
  "CONSTRAINT_CATALOG",
  "CONSTRAINT_NAME",
  "CONSTRAINT_SCHEMA",
  "CONSTRAINTS",
  "CONSTRUCTOR",
  "CONTAINS",
  "CONTAINSTABLE",
  "CONTENT",
  "CONTENTS",
  "CONTINUE",
  "CONTROL",
  "CONTROLFILE",
  "CONVERT",
  "CORR",
  "CORRESPONDING",
  "COST",
  "COUNT",
  "COVAR_POP",
  "COVAR_SAMP",
  "CPU_PER_CALL",
  "CPU_PER_SESSION",
  "CREATE",
  "CREATIONDATE",
  "CREATOR",
  "CROSS",
  "CUBE",
  "CUME_DIST",
  "CURREN_USER",
  "CURRENT",
  "CURRENT_CATALOG",
  "CURRENT_CONNECTION",
  "CURRENT_DATE",
  "CURRENT_DEFAULT_TRANSFORM_GROUP",
  "CURRENT_LC_CTYPE",
  "CURRENT_PATH",
  "CURRENT_ROLE",
  "CURRENT_ROW",
  "CURRENT_SCHEMA",
  "CURRENT_TIME",
  "CURRENT_TIMESTAMP",
  "CURRENT_TRANSFORM_GROUP_FOR_TYPE",
  "CURRENT_USER",
  "CURRENT_UTCDATE",
  "CURRENT_UTCTIME",
  "CURRENT_UTCTIMESTAMP",
  "CURRVAL",
  "CURSOR",
  "CURSOR_NAME",
  "CYCLE",
  "DANGLING",
  "DATA",
  "DATABASE",
  "DATAFILE",
  "DATAFILES",
  "DATALINK",
  "DATAOBJNO",
  "DATE",
  "DATETIME_INTERVAL_CODE",
  "DATETIME_INTERVAL_PRECISION",
  "DAY",
  "DAYS",
  "DB",
  "DBA",
  "DBCC",
  "DBHIGH",
  "DBINFO",
  "DBLOW",
  "DBMAC",
  "DEALLOCATE",
  "DEBUG",
  "DEC",
  "DECIMAL",
  "DECLARE",
  "DEFAULT",
  "DEFERRABLE",
  "DEFERRED",
  "DEFINED",
  "DEGREE",
  "DELETE",
  "DENSE_RANK",
  "DENY",
  "DEPTH",
  "DEREF",
  "DERIVED",
  "DESC",
  "DESCRIBE",
  "DESCRIPTOR",
  "DETERMINISTIC",
  "DIAGNOSTICS",
  "DIRECTORY",
  "DISABLE",
  "DISALLOW",
  "DISCONNECT",
  "DISK",
  "DISMOUNT",
  "DISPATCH",
  "DISTINCT",
  "DISTRIBUTED",
  "DLNEWCOPY",
  "DLPREVIOUSCOPY",
  "DLURLCOMPLETE",
  "DLURLCOMPLETEONLY",
  "DLURLCOMPLETEWRITE",
  "DLURLPATH",
  "DLURLPATHONLY",
  "DLURLPATHWRITE",
  "DLURLSCHEME",
  "DLURLSERVER",
  "DLVALUE",
  "DML",
  "DO",
  "DOCUMENT",
  "DOUBLE",
  "DROP",
  "DSSIZE",
  "DUMP",
  "DYNAMIC",
  "DYNAMIC_FUNCTION",
  "DYNAMIC_FUNCTION_CODE",
  "EACH",
  "EDITDATE",
  "EDITOR",
  "EDITPROC",
  "ELEMENT",
  "ELSE",
  "ELSEIF",
  "ELSIF",
  "EMAXX",
  "EMAXY",
  "EMAXZ",
  "EMINX",
  "EMINY",
  "EMINZ",
  "EMPTY",
  "ENABLE",
  "ENCODING",
  "ENCRYPTION",
  "END",
  "END_FRAME",
  "END_PARTITION",
  "END-EXEC",
  "ENDING",
  "ENFORCE",
  "ENFORCED",
  "ENTITY",
  "ENTRY",
  "EQUALS",
  "ERASE",
  "ERRLVL",
  "ESCAPE",
  "EVERY",
  "EXCEPT",
  "EXCEPTION",
  "EXCEPTIONS",
  "EXCHANGE",
  "EXCLUDING",
  "EXCLUSIVE",
  "EXEC",
  "EXECUTE",
  "EXISTS",
  "EXIT",
  "EXP",
  "EXPIRE",
  "EXPLAIN",
  "EXPRESSION",
  "EXTENT",
  "EXTENTS",
  "EXTERNAL",
  "EXTERNALLY",
  "FAILED_LOGIN_ATTEMPTS",
  "FALSE",
  "FAST",
  "FENCED",
  "FETCH",
  "FID",
  "FIELDPROC",
  "FILE",
  "FILLFACTOR",
  "FILTER",
  "FINAL",
  "FIRST",
  "FIRST_ROWS",
  "FIRST_VALUE",
  "FLAG",
  "FLAGGER",
  "FLOAT",
  "FLOB",
  "FLOOR",
  "FLUSH",
  "FOR",
  "FORCE",
  "FOREIGN",
  "FORTRAN",
  "FOUND",
  "FRAME_ROW",
  "FREE",
  "FREELIST",
  "FREELISTS",
  "FREETEXT",
  "FREETEXTTABLE",
  "FREEZE",
  "FROM",
  "FS",
  "FULL",
  "FUNCTION",
  "FUSION",
  "G",
  "GENERAL",
  "GENERATED",
  "GET",
  "GLOBAL",
  "GLOBAL_NAME",
  "GLOBALID",
  "GLOBALLY",
  "GO",
  "GOTO",
  "GRANT",
  "GROUP",
  "GROUPING",
  "GROUPS",
  "HANDLER",
  "HASH",
  "HASHKEYS",
  "HAVING",
  "HEADER",
  "HEAP",
  "HEX",
  "HIERARCHY",
  "HOLD",
  "HOLDLOCK",
  "HOUR",
  "HOURS",
  "ID",
  "IDENTIFIED",
  "IDENTITY",
  "IDENTITY_INSERT",
  "IDENTITYCOL",
  "IDGENERATORS",
  "IDLE_TIME",
  "IF",
  "IGNORE",
  "ILIKE",
  "IMMEDIATE",
  "IMMEDIATELY",
  "IMPLEMENTATION",
  "IMPORT",
  "IN",
  "INCLUDING",
  "INCLUSIVE",
  "INCREMENT",
  "IND_PARTITION",
  "INDENT",
  "INDEX",
  "INDEXED",
  "INDEXES",
  "INDICATOR",
  "INHERIT",
  "INITIAL",
  "INITIALLY",
  "INITRANS",
  "INNER",
  "INOUT",
  "INSENSITIVE",
  "INSERT",
  "INSTANCE",
  "INSTANCES",
  "INSTANTIABLE",
  "INSTEAD",
  "INT",
  "INTEGER",
  "INTEGRITY",
  "INTERMEDIATE",
  "INTERSECT",
  "INTERSECTION",
  "INTO",
  "IS",
  "ISNULL",
  "ISOBID",
  "ISOLATION",
  "ISOLATION_LEVEL",
  "ITERATE",
  "JAR",
  "JOIN",
  "K",
  "KEEP",
  "KEY",
  "KEY_MEMBER",
  "KEY_TYPE",
  "KILL",
  "LABEL",
  "LAG",
  "LANGUAGE",
  "LAST",
  "LAST_VALUE",
  "LATERAL",
  "LAYER",
  "LC_CTYPE",
  "LEAD",
  "LEADING",
  "LEAVE",
  "LEFT",
  "LEN",
  "LENGTH",
  "LESS",
  "LEVEL",
  "LIBRARY",
  "LIKE",
  "LIKE_REGEX",
  "LIMIT",
  "LINENO",
  "LINK",
  "LIST",
  "LN",
  "LOAD",
  "LOB",
  "LOCAL",
  "LOCALE",
  "LOCALTIME",
  "LOCALTIMESTAMP",
  "LOCATOR",
  "LOCATORS",
  "LOCK",
  "LOCKED",
  "LOCKMAX",
  "LOCKSIZE",
  "LOG",
  "LOGFILE",
  "LOGGING",
  "LOGICAL_READS_PER_CALL",
  "LOGICAL_READS_PER_SESSION",
  "LONG",
  "LOOP",
  "LOWER",
  "M",
  "MAINTAINED",
  "MANAGE",
  "MAP",
  "MASTER",
  "MATCHED",
  "MATERIALIZED",
  "MAX",
  "MAX_CARDINALITY",
  "MAX_MEASURE",
  "MAXARCHLOGS",
  "MAXDATAFILES",
  "MAXEXTENTS",
  "MAXINSTANCES",
  "MAXLOGFILES",
  "MAXLOGHISTORY",
  "MAXLOGMEMBERS",
  "MAXSIZE",
  "MAXTRANS",
  "MAXVALUE",
  "MEMBER",
  "MERGE",
  "MESSAGE_LENGTH",
  "MESSAGE_OCTET_LENGTH",
  "MESSAGE_TEXT",
  "METHOD",
  "MICROSECOND",
  "MICROSECONDS",
  "MIN",
  "MIN_MEASURE",
  "MINEXTENTS",
  "MINIMUM",
  "MINUS",
  "MINUTE",
  "MINUTES",
  "MINVALUE",
  "MLS_LABEL_FORMAT",
  "MLSLABEL",
  "MOD",
  "MODE",
  "MODIFIES",
  "MODIFY",
  "MODULE",
  "MONTH",
  "MONTHS",
  "MORE",
  "MOUNT",
  "MOVE",
  "MTS_DISPATCHERS",
  "MULTISET",
  "MUMPS",
  "NAMESPACE",
  "NATIONAL",
  "NATURAL",
  "NCHAR",
  "NCHAR_CS",
  "NCLOB",
  "NEEDED",
  "NESTED",
  "NESTING",
  "NETWORK",
  "NEW",
  "NEXT",
  "NEXTVAL",
  "NFC",
  "NFD",
  "NFKC",
  "NFKD",
  "NIL",
  "NO",
  "NOARCHIVELOG",
  "NOAUDIT",
  "NOCACHE",
  "NOCHECK",
  "NOCOMPRESS",
  "NOCYCLE",
  "NOFORCE",
  "NOLOGGING",
  "NOMAXVALUE",
  "NOMINVALUE",
  "NONCLUSTERED",
  "NONE",
  "NOORDER",
  "NOOVERRIDE",
  "NOPARALLEL",
  "NOREVERSE",
  "NORMAL",
  "NORMALIZE",
  "NORMALIZED",
  "NOSORT",
  "NOT",
  "NOTHING",
  "NOTNULL",
  "NOWAIT",
  "NTH_VALUE",
  "NTILE",
  "NULL",
  "NULLABLE",
  "NULLIF",
  "NULLS",
  "NUMBER",
  "NUMERIC",
  "NUMOFPTS",
  "NUMPARTS",
  "NVARCHAR2",
  "OBID",
  "OBJECT",
  "OBJECTID",
  "OBJNO",
  "OBJNO_REUSE",
  "OCCURRENCES_REGEX",
  "OCTET_LENGTH",
  "OCTETS",
  "OF",
  "OFF",
  "OFFLINE",
  "OFFSET",
  "OFFSETS",
  "OID",
  "OIDINDEX",
  "OLD",
  "ON",
  "ONLINE",
  "ONLY",
  "OPCODE",
  "OPEN",
  "OPENDATASOURCE",
  "OPENQUERY",
  "OPENROWSET",
  "OPENXML",
  "OPTIMAL",
  "OPTIMIZATION",
  "OPTIMIZE",
  "OPTIMIZER_GOAL",
  "OPTION",
  "OR",
  "ORDER",
  "ORDERING",
  "ORDINALITY",
  "ORGANIZATION",
  "OSLABEL",
  "OTHERS",
  "OUT",
  "OUTER",
  "OUTPUT",
  "OVER",
  "OVERFLOW",
  "OVERLAPS",
  "OVERRIDING",
  "OWN",
  "P",
  "PACKAGE",
  "PAD",
  "PADDED",
  "PARALLEL",
  "PARAMETER",
  "PARAMETER_MODE",
  "PARAMETER_NAME",
  "PARAMETER_ORDINAL_POSITION",
  "PARAMETER_SPECIFIC_CATALOG",
  "PARAMETER_SPECIFIC_NAME",
  "PARAMETER_SPECIFIC_SCHEMA",
  "PART",
  "PARTITION",
  "PARTITIONED",
  "PARTITIONING",
  "PASCAL",
  "PASSTHROUGH",
  "PASSWORD",
  "PASSWORD_GRACE_TIME",
  "PASSWORD_LIFE_TIME",
  "PASSWORD_LOCK_TIME",
  "PASSWORD_REUSE_MAX",
  "PASSWORD_REUSE_TIME",
  "PASSWORD_VERIFY_FUNCTION",
  "PATH",
  "PCTFREE",
  "PCTINCREASE",
  "PCTTHRESHOLD",
  "PCTUSED",
  "PCTVERSION",
  "PERCENT",
  "PERCENT_RANK",
  "PERCENTILE_CONT",
  "PERCENTILE_DISC",
  "PERIOD",
  "PERMANENT",
  "PERMISSION",
  "PIECESIZE",
  "PIVOT",
  "PLACING",
  "PLAN",
  "PLI",
  "PLSQL_DEBUG",
  "POINTS",
  "PORTION",
  "POSITION_REGEX",
  "POST_TRANSACTION",
  "POWER",
  "PRECEDES",
  "PRECISION",
  "PREPARE",
  "PRESERVE",
  "PREVVAL",
  "PRIMARY",
  "PRINT",
  "PRIOR",
  "PRIQTY",
  "PRIVATE",
  "PRIVATE_SGA",
  "PRIVILEGE",
  "PRIVILEGES",
  "PROC",
  "PROCEDURE",
  "PROFILE",
  "PROGRAM",
  "PSID",
  "PUBLIC",
  "PURGE",
  "QUERY",
  "QUERYNO",
  "QUEUE",
  "QUOTA",
  "RAISERROR",
  "RANGE",
  "RANK",
  "RAW",
  "RBA",
  "READ",
  "READS",
  "READTEXT",
  "READUP",
  "REAL",
  "REBUILD",
  "RECONFIGURE",
  "RECOVER",
  "RECOVERABLE",
  "RECOVERY",
  "REF",
  "REFERENCES",
  "REFERENCING",
  "REFRESH",
  "REGR_AVGX",
  "REGR_AVGY",
  "REGR_COUNT",
  "REGR_INTERCEPT",
  "REGR_R2",
  "REGR_SLOPE",
  "REGR_SXX",
  "REGR_SXY",
  "REGR_SYY",
  "RELEASE",
  "RENAME",
  "REPEAT",
  "REPLACE",
  "REPLICATION",
  "REQUIRING",
  "RESET",
  "RESETLOGS",
  "RESIGNAL",
  "RESIZE",
  "RESOURCE",
  "RESPECT",
  "RESTORE",
  "RESTRICT",
  "RESTRICTED",
  "RESULT",
  "RESULT_SET_LOCATOR",
  "RETURN",
  "RETURNED_CARDINALITY",
  "RETURNED_LENGTH",
  "RETURNED_OCTET_LENGTH",
  "RETURNED_SQLSTATE",
  "RETURNING",
  "RETURNS",
  "REUSE",
  "REVERSE",
  "REVERT",
  "REVOKE",
  "RIGHT",
  "ROLE",
  "ROLES",
  "ROLLBACK",
  "ROLLUP",
  "ROUND_CEILING",
  "ROUND_DOWN",
  "ROUND_FLOOR",
  "ROUND_HALF_DOWN",
  "ROUND_HALF_EVEN",
  "ROUND_HALF_UP",
  "ROUND_UP",
  "ROUTINE",
  "ROUTINE_CATALOG",
  "ROUTINE_NAME",
  "ROUTINE_SCHEMA",
  "ROW",
  "ROW_COUNT",
  "ROW_NUMBER",
  "ROWCOUNT",
  "ROWGUIDCOL",
  "ROWID",
  "ROWNUM",
  "ROWS",
  "ROWSET",
  "RULE",
  "RUN",
  "SAMPLE",
  "SAVE",
  "SAVEPOINT",
  "SB4",
  "SCALE",
  "SCAN_INSTANCES",
  "SCHEMA",
  "SCHEMA_NAME",
  "SCN",
  "SCOPE",
  "SCOPE_CATALOG",
  "SCOPE_NAME",
  "SCOPE_SCHEMA",
  "SCRATCHPAD",
  "SD_ALL",
  "SD_INHIBIT",
  "SD_SHOW",
  "SECOND",
  "SECONDS",
  "SECQTY",
  "SECTION",
  "SECURITY",
  "SECURITYAUDIT",
  "SEG_BLOCK",
  "SEG_FILE",
  "SEGMENT",
  "SELECT",
  "SELECTIVE",
  "SELF",
  "SEMANTICKEYPHRASETABLE",
  "SEMANTICSIMILARITYDETAILSTABLE",
  "SEMANTICSIMILARITYTABLE",
  "SENSITIVE",
  "SEQUENCE",
  "SERIALIZABLE",
  "SERVER_NAME",
  "SESSION",
  "SESSION_CACHED_CURSORS",
  "SESSION_USER",
  "SESSIONS_PER_USER",
  "SET",
  "SETS",
  "SETUSER",
  "SHAPE",
  "SHARE",
  "SHARED",
  "SHARED_POOL",
  "SHRINK",
  "SHUTDOWN",
  "SIGNAL",
  "SIMILAR",
  "SIMPLE",
  "SIZE",
  "SKIP",
  "SKIP_UNUSABLE_INDEXES",
  "SMALLINT",
  "SNAPSHOT",
  "SOME",
  "SORT",
  "SOURCE",
  "SPACE",
  "SPECIFIC",
  "SPECIFIC_NAME",
  "SPECIFICATION",
  "SPECIFICTYPE",
  "SPLIT",
  "SQL",
  "SQL_TRACE",
  "SQLCODE",
  "SQLERROR",
  "SQLEXCEPTION",
  "SQLSTATE",
  "SQLWARNING",
  "SQRT",
  "STANDARD",
  "STANDBY",
  "START",
  "STATE",
  "STATEMENT",
  "STATEMENT_ID",
  "STATIC",
  "STATISTICS",
  "STAY",
  "STDDEV_POP",
  "STDDEV_SAMP",
  "STOGROUP",
  "STOP",
  "STORAGE",
  "STORE",
  "STORES",
  "STRUCTURE",
  "STYLE",
  "SUBCLASS_ORIGIN",
  "SUBMULTISET",
  "SUBSTRING_REGEX",
  "SUCCEEDS",
  "SUCCESSFUL",
  "SUM",
  "SUMMARY",
  "SWITCH",
  "SYMMETRIC",
  "SYNONYM",
  "SYS_OP_ENFORCE_NOT_NULL$",
  "SYS_OP_NTCIMG$",
  "SYSDATE",
  "SYSDBA",
  "SYSOPER",
  "SYSTEM",
  "SYSTEM_TIME",
  "SYSTEM_USER",
  "SYSTIME",
  "SYSTIMESTAMP",
  "SYSUUID",
  "T",
  "TABLE",
  "TABLE_NAME",
  "TABLES",
  "TABLESAMPLE",
  "TABLESPACE",
  "TABLESPACE_NO",
  "TABNO",
  "TEMPORARY",
  "TEXTSIZE",
  "THAN",
  "THE",
  "THEN",
  "THREAD",
  "TIES",
  "TIME",
  "TIMESTAMP",
  "TIMEZONE_HOUR",
  "TIMEZONE_MINUTE",
  "TO",
  "TOKEN",
  "TOP",
  "TOP_LEVEL_COUNT",
  "TOPLEVEL",
  "TRACE",
  "TRACING",
  "TRAILING",
  "TRAN",
  "TRANSACTION",
  "TRANSACTION_ACTIVE",
  "TRANSACTIONS_COMMITTED",
  "TRANSACTIONS_ROLLED_BACK",
  "TRANSFORM",
  "TRANSFORMS",
  "TRANSITIONAL",
  "TRANSLATE",
  "TRANSLATE_REGEX",
  "TRANSLATION",
  "TRIGGER",
  "TRIGGER_CATALOG",
  "TRIGGER_NAME",
  "TRIGGER_SCHEMA",
  "TRIGGERS",
  "TRIM_ARRAY",
  "TRUE",
  "TRUNCATE",
  "TRY_CONVERT",
  "TSEQUAL",
  "TX",
  "TYPE",
  "UB2",
  "UBA",
  "UESCAPE",
  "UID",
  "UNARCHIVED",
  "UNDER",
  "UNDO",
  "UNION",
  "UNIQUE",
  "UNLIMITED",
  "UNLINK",
  "UNLOCK",
  "UNNAMED",
  "UNNEST",
  "UNPIVOT",
  "UNRECOVERABLE",
  "UNTIL",
  "UNTYPED",
  "UNUSABLE",
  "UNUSED",
  "UPDATABLE",
  "UPDATE",
  "UPDATETEXT",
  "UPPER",
  "URI",
  "USAGE",
  "USE",
  "USER",
  "USER_DEFINED_TYPE_CATALOG",
  "USER_DEFINED_TYPE_CODE",
  "USER_DEFINED_TYPE_NAME",
  "USER_DEFINED_TYPE_SCHEMA",
  "USING",
  "UTCDATE",
  "UTCTIME",
  "UTCTIMESTAMP",
  "VALIDATE",
  "VALIDATION",
  "VALIDPROC",
  "VALUE",
  "VALUE_OF",
  "VALUES",
  "VAR_POP",
  "VAR_SAMP",
  "VARBINARY",
  "VARCHAR",
  "VARCHAR2",
  "VARIABLE",
  "VARIADIC",
  "VARIANT",
  "VARYING",
  "VCAT",
  "VERBOSE",
  "VERSIONING",
  "VIEW",
  "VOLATILE",
  "VOLUMES",
  "WAITFOR",
  "WHEN",
  "WHENEVER",
  "WHERE",
  "WHILE",
  "WIDTH_BUCKET",
  "WINDOW",
  "WITH",
  "WITHIN",
  "WITHIN GROUP",
  "WITHOUT",
  "WLM",
  "WORK",
  "WRITE",
  "WRITEDOWN",
  "WRITETEXT",
  "WRITEUP",
  "XID",
  "XMLAGG",
  "XMLBINARY",
  "XMLCAST",
  "XMLCOMMENT",
  "XMLDECLARATION",
  "XMLDOCUMENT",
  "XMLEXISTS",
  "XMLITERATE",
  "XMLNAMESPACES",
  "XMLQUERY",
  "XMLSCHEMA",
  "XMLTABLE",
  "XMLTEXT",
  "XMLVALIDATE",
  "YEAR",
  "YEARS",
  "ZONE"
]

/-- The values of the `QuestionTypes` enum, in source order.  For this enum
every member name equals its value, so the same list serves both the
`hasattr(QuestionTypes, type)` check of `Question.validate_by_type` (member
names) and `hidden_appearance_combos` (member values). -/
def questionTypeValues : List String :=
  ["text", "integer", "decimal", "date", "time", "dateTime",
   "select_one", "select_multiple",
   "select_one_from_file", "select_multiple_from_file",
   "rank", "range", "note",
   "geopoint", "geotrace", "geoshape",
   "image", "audio", "file", "barcode",
   "begin", "end", "calculate", "hidden",
   "username", "email", "start", "deviceid"]

/-- The values of the `AppearanceAttributes` enum, in source order.  pydantic
coerces a supplied `appearance_attributes` string to this enum by value, and
`use_enum_values` stores the value string. -/
def appearanceValues : List String :=
  ["multiline", "minimal", "quick", "no-calendar", "month-year", "year",
   "horizontal-compact", "horizontal", "likert", "compact", "quickcompact",
   "field-list", "label", "list-nolabel", "table-list", "signature", "draw",
   "map", "quick map", "minimal compact", "image-map", "autocomplete",
   "predictivetext", "nopredictivetext", "week-number", "distress", "spinner",
   "numbers", "calculator", "thousands-sep", "no-ticks", "annotate",
   "new-rear", "new-front", "hidden", "geocode", "hide-input",
   "press-to-locate", "spike", "spike-full-measure", "spike-point-to-point"]

/-- The `base_appearance_combos` table, verbatim from the source (the first
component is the literal string written there, which for several entries is
the Python member *name* with underscores, not the enum value). -/
def base_appearance_combos : List (String × String) :=
  [("minimal", "select_one"),
   ("minimal", "select_multiple"),
   ("minimal", "barcode"),
   ("minimal", "begin"),
   ("minimal_compact", "begin"),
   ("compact", "select_one"),
   ("compact", "select_multiple"),
   ("compact", "begin"),
   ("horizontal", "select_one"),
   ("horizontal", "select_multiple"),
   ("horizontal_compact", "select_one"),
   ("horizontal_compact", "select_multiple"),
   ("image_map", "select_one"),
   ("image_map", "select_multiple"),
   ("autocomplete", "select_one"),
   ("likert", "select_one"),
   ("multiline", "text"),
   ("multiline", "image"),
   ("multiline", "file"),
   ("predictivetext", "text"),
   ("nopredictivetext", "text"),
   ("year", "date"),
   ("month_year", "date"),
   ("week_number", "date"),
   ("distress", "integer"),
   ("spinner", "integer"),
   ("spinner", "decimal"),
   ("numbers", "integer"),
   ("numbers", "decimal"),
   ("calculator", "integer"),
   ("calculator", "decimal"),
   ("thousands_sep", "decimal"),
   ("no_ticks", "range"),
   ("draw", "image"),
   ("annotate", "image"),
   ("signature", "image"),
   ("new_rear", "image"),
   ("new_front", "image"),
   ("field_list", "begin"),
   ("table_list", "begin"),
   ("geocode", "text"),
   ("hide_input", "geopoint"),
   ("press_to_locate", "geopoint"),
   ("press_to_locate", "geotrace"),
   ("press_to_locate", "geoshape"),
   ("spike", "image"),
   ("spike_full_measure", "image"),
   ("spike_point_to_point", "image")]

/-- `hidden_appearance_combos = tuple(("hidden", type.value) for type in QuestionTypes)`. -/
def hidden_appearance_combos : List (String × String) :=
  questionTypeValues.map (fun t => ("hidden", t))

/-- `Appearance_Question_Combos = base_appearance_combos + hidden_appearance_combos`. -/
def Appearance_Question_Combos : List (String × String) :=
  base_appearance_combos ++ hidden_appearance_combos

/-- Function `check_appearance_question_combo`: membership of the pair in the
static table. -/
def check_appearance_question_combo (appearance_attribute : String) (type : String) : Bool :=
  Appearance_Question_Combos.contains (appearance_attribute, type)

/-- A validated `Question` (class `Question`).  `type` and
`appearance_attributes` are stored as value strings (`use_enum_values`);
`range` is kept as supplied (the source never clears it for non-range types). -/
structure Question where
  type : String
  name : String
  label : String
  required : Option Bool
  default : Option String
  hint : Option String
  logics : Option (List Logic)
  calculation : Option String
  range : Option RangeVal
  accuracyThreshold : Option Int
  choices : Option (List Choice)
  allow_other : Option Bool
  file : Option String
  parameters : Option (List (String × Int))
  appearance_attributes : Option String
deriving DecidableEq, Repr

/-- The keyword arguments of a `Question` construction, after pydantic field
coercion of the primitive field types (every optional field defaults to
`None`).  `parameters` is a Python dict, modelled as an insertion-ordered
association list. -/
structure QuestionArgs where
  type : String
  name : String
  label : String
  required : Option Bool
  default : Option String
  hint : Option String
  logics : Option (List Logic)
  calculation : Option String
  range : Option RangeVal
  accuracyThreshold : Option Int
  choices : Option (List Choice)
  allow_other : Option Bool
  file : Option String
  parameters : Option (List (String × Int))
  appearance_attributes : Option String
deriving DecidableEq, Repr

/-- `QuestionArgs` with only the three required fields set (all other
keyword arguments left at their `None` defaults). -/
def QuestionArgs.basic (type name label : String) : QuestionArgs :=
  ⟨type, name, label, none, none, none, none, none, none, none, none, none,
   none, none, none⟩

/-- Field validator `Question.validate_name`: raise if the name is a member of
`RESERVED_NAMES`. -/
def validate_name (v : String) : Except String String :=
  if RESERVED_NAMES.contains v then
    .error (v ++ " cannot be used as a question name")
  else
    .ok v

/-- Python dict assignment `d[k] = v`: update in place if the key exists
(keeping its position), else append. -/
def dictSet (d : List (String × Int)) (k : String) (v : Int) : List (String × Int) :=
  if d.any (fun p => p.1 == k) then
    d.map (fun p => if p.1 == k then (k, v) else p)
  else
    d ++ [(k, v)]

/-- The inner helper `check_associated` of `Question.validate_by_type`: if the
question type is in `q_types` the field must be present when `required`,
otherwise the field is forced to `None`. -/
def check_associated (type : String) (q_types : List String) (field_name : String)
    (v : Option α) (required : Bool) : Except String (Option α) :=
  if q_types.contains type then
    match required, v with
    | true, none => .error (field_name ++ " required for type " ++ type)
    | _, _ => .ok v
  else
    .ok none

/-- Root validator `Question.validate_by_type` (runs after all field
validators): the `hasattr(QuestionTypes, type)` check, the five
`check_associated` calls in source order, and the `range` branch that copies
`start`/`end`/`step` into `parameters`. -/
def validate_by_type (a : QuestionArgs) : Except String QuestionArgs := do
  if ¬ questionTypeValues.contains a.type then
    throw "Invalid question type"
  let calculation ← check_associated a.type ["calculate"] "calculation" a.calculation true
  let choices ← check_associated a.type ["rank", "select_one", "select_multiple"]
    "choices" a.choices true
  let allow_other ← check_associated a.type ["rank", "select_one", "select_multiple"]
    "allow_other" a.allow_other false
  let accuracyThreshold ← check_associated a.type ["geopoint", "geotrace", "geoshape"]
    "accuracyThreshold" a.accuracyThreshold false
  let file ← check_associated a.type ["select_one_from_file", "select_multiple_from_file"]
    "file" a.file true
  let parameters ←
    if a.type = "range" then
      match a.range with
      | none => throw "range cannot be None when type == range"
      | some r =>
        let ps := a.parameters.getD []
        pure (some (dictSet (dictSet (dictSet ps "start" r.start) "end" r.«end») "step" r.step))
    else
      pure a.parameters
  pure { a with calculation := calculation, choices := choices,
                allow_other := allow_other, accuracyThreshold := accuracyThreshold,
                file := file, parameters := parameters }

/-- The validated model built from the final `values` dict. -/
def questionOfArgs (a : QuestionArgs) : Question :=
  ⟨a.type, a.name, a.label, a.required, a.default, a.hint, a.logics,
   a.calculation, a.range, a.accuracyThreshold, a.choices, a.allow_other,
   a.file, a.parameters, a.appearance_attributes⟩

/-- Field validation of `appearance_attributes`: enum coercion by value,
then the `check_appearance_attributes` validator (which raises a bare
`ValueError` on an incompatible combination). -/
def validate_appearance (a : QuestionArgs) : Except String Unit := do
  match a.appearance_attributes with
  | none => pure ()
  | some app =>
    if ¬ appearanceValues.contains app then
      throw "value is not a valid enumeration member"
    if ¬ check_appearance_question_combo app a.type then
      throw "appearance incompatible with question type"
    pure ()

/-- Construction of a `Question` from keyword arguments: field validators in
field-declaration order (`validate_name` on `name`, then the
`appearance_attributes` coercion and `check_appearance_attributes`), then the
post root validator `validate_by_type`, then the model is built from the
final `values`. -/
def mkQuestion (a : QuestionArgs) : Except String Question := do
  let _ ← validate_name a.name
  let _ ← validate_appearance a
  let a' ← validate_by_type a
  pure (questionOfArgs a')

mutual
/-- A survey item: either a `Question` or a `QuestionGroup` (the recursive sum
used by `items` fields). -/
inductive Item where
  | question (q : Question)
  | group (g : QuestionGroup)

/-- A `QuestionGroup` (class `QuestionGroup`): `type`, `name`, `label`,
`items`, `logics`, `repeat_count`. -/
inductive QuestionGroup where
  | mk (type : PyGroupType) (name : String) (label : String)
       (items : List Item) (logics : Option (List Logic))
       (repeat_count : Option RepeatCount)
end

/-- Accessor for the `type` field of a `QuestionGroup`. -/
def QuestionGroup.type : QuestionGroup → PyGroupType
  | .mk t _ _ _ _ _ => t

/-- Accessor for the `name` field of a `QuestionGroup`. -/
def QuestionGroup.name : QuestionGroup → String
  | .mk _ n _ _ _ _ => n

/-- Accessor for the `label` field of a `QuestionGroup`. -/
def QuestionGroup.label : QuestionGroup → String
  | .mk _ _ l _ _ _ => l

/-- Accessor for the `items` field of a `QuestionGroup`. -/
def QuestionGroup.items : QuestionGroup → List Item
  | .mk _ _ _ i _ _ => i

/-- Accessor for the `logics` field of a `QuestionGroup`. -/
def QuestionGroup.logics : QuestionGroup → Option (List Logic)
  | .mk _ _ _ _ lg _ => lg

/-- Accessor for the `repeat_count` field of a `QuestionGroup`. -/
def QuestionGroup.repeat_count : QuestionGroup → Option RepeatCount
  | .mk _ _ _ _ _ rc => rc

/-- Construction of a `QuestionGroup` from keyword arguments.  `type` is a
`str` field whose *default* is the raw enum member `GroupTypes.group`;
pydantic v1 does not validate defaults, so an omitted `type` (modelled as
`none` here) reaches the root validator as that member.  `name` and `label`
are required `str` fields.  The root validator `validate_repeat` then runs:

- `hasattr(GroupTypes, group_type)` raises `TypeError: attribute name must be
  string` when `group_type` is the enum member (pydantic wraps the
  `TypeError` into a `ValidationError`), and is `False` for a string that is
  not a member name;
- `type == "repeat"` without a `repeat_count` is rejected;
- any other string type with a non-`None` `repeat_count` has `values["type"]`
  overwritten with the raw member `GroupTypes.repeat`. -/
def mkQuestionGroup (type : Option String) (name : Option String)
    (label : Option String) (items : List Item)
    (logics : Option (List Logic)) (repeat_count : Option RepeatCount) :
    Except String QuestionGroup := do
  let name ← match name with
    | some n => pure n
    | none => throw "field required: name"
  let label ← match label with
    | some l => pure l
    | none => throw "none is not an allowed value: label"
  let t : PyGroupType := match type with
    | some s => .ofStr s
    | none => .member .group
  match t with
  | .member _ => throw "TypeError: hasattr(): attribute name must be string"
  | .ofStr s =>
    if ¬ groupTypeNames.contains s then
      throw "Invalid question type"
    if s = "repeat" then
      match repeat_count with
      | none => throw "repeat_count cannot be None when type == repeat"
      | some _ => pure (.mk (.ofStr s) name label items logics repeat_count)
    else
      match repeat_count with
      | some _ => pure (.mk (.member .«repeat») name label items logics repeat_count)
      | none => pure (.mk (.ofStr s) name label items logics repeat_count)

/-- The `Survey` root aggregate: `name`, `label`, `items`.  It has no custom
validators; literal construction from already-validated items always
succeeds. -/
structure Survey where
  name : String
  label : String
  items : List Item

/-- A pandas cell value as it occurs in this library: missing (`NaN`/`None`),
a string, a bool, an int, or one of the container values produced by
`BaseModel.dict()` (`choices`/`logics`/`range`/`parameters`/`items`), a
`repeat_count`, or a raw `GroupTypes` member. -/
inductive Cell where
  | none
  | str (s : String)
  | bool (b : Bool)
  | int (n : Int)
  | choiceList (cs : List Choice)
  | logicList (ls : List Logic)
  | rangeDict (r : RangeVal)
  | paramsDict (ps : List (String × Int))
  | repeatVal (rc : RepeatCount)
  | gmember (g : GroupTypes)
  | itemList (xs : List Item)

/-- A table row, as the Python dicts used for `pd.DataFrame(...)` /
`to_dict("records")`: an insertion-ordered association list with unique keys. -/
abbrev Row := List (String × Cell)

/-- Python dict lookup `row.get(k)`. -/
def rowGet (r : Row) (k : String) : Option Cell :=
  (r.find? (fun p => p.1 == k)).map (fun p => p.2)

/-- Python dict assignment `row[k] = v`: overwrite in place (keeping the key
position) or append. -/
def rowSet (r : Row) (k : String) (v : Cell) : Row :=
  if r.any (fun p => p.1 == k) then
    r.map (fun p => if p.1 == k then (k, v) else p)
  else
    r ++ [(k, v)]

/-- Python `del row[k]` (call sites only delete keys that are present). -/
def rowDel (r : Row) (k : String) : Row :=
  r.filter (fun p => ¬ p.1 == k)

/-- Test for a missing cell. -/
def isNoneCell : Cell → Bool
  | .none => true
  | _ => false

/-- An apostrophe character, written as an escape. -/
def sq : String := "\x27"

/-- Python `repr` of a string (single-quoted). -/
def pyQuote (s : String) : String := sq ++ s ++ sq

/-- Python `repr` of an optional string inside a dict (`None` or quoted). -/
def pyReprOptStr : Option String → String
  | Option.none => "None"
  | Option.some s => pyQuote s

/-- Python `repr` of a bool. -/
def pyReprBool (b : Bool) : String := if b then "True" else "False"

/-- Python `repr` of an optional bool. -/
def pyReprOptBool : Option Bool → String
  | Option.none => "None"
  | Option.some b => pyReprBool b

/-- Python `repr` of one `Choice.dict()`. -/
def pyReprChoiceDict (c : Choice) : String :=
  "\x7b" ++ pyQuote "value" ++ ": " ++ pyQuote c.value ++ ", "
    ++ pyQuote "label" ++ ": " ++ pyQuote c.label ++ "\x7d"

/-- Python `repr` of one `Logic.dict()`. -/
def pyReprLogicDict (l : Logic) : String :=
  "\x7b" ++ pyQuote "type" ++ ": " ++ pyQuote l.type ++ ", "
    ++ pyQuote "expression" ++ ": " ++ pyQuote l.expression ++ ", "
    ++ pyQuote "message" ++ ": " ++ pyReprOptStr l.message ++ "\x7d"

/-- Python `repr` of a list rendered from element reprs. -/
def pyReprList (elems : List String) : String :=
  "[" ++ String.intercalate ", " elems ++ "]"

/-- Python `repr` of an optional list of `Logic.dict()`s. -/
def pyReprOptLogics : Option (List Logic) → String
  | Option.none => "None"
  | Option.some ls => pyReprList (ls.map pyReprLogicDict)

/-- Python `repr` of an optional list of `Choice.dict()`s. -/
def pyReprOptChoices : Option (List Choice) → String
  | Option.none => "None"
  | Option.some cs => pyReprList (cs.map pyReprChoiceDict)

/-- Python `repr` of a `Range.dict()`. -/
def pyReprRangeDict (r : RangeVal) : String :=
  "\x7b" ++ pyQuote "start" ++ ": " ++ toString r.start ++ ", "
    ++ pyQuote "end" ++ ": " ++ toString r.«end» ++ ", "
    ++ pyQuote "step" ++ ": " ++ toString r.step ++ "\x7d"

/-- Python `repr` of a `parameters` dict. -/
def pyReprParamsDict (ps : List (String × Int)) : String :=
  "\x7b" ++ String.intercalate ", "
    (ps.map (fun p => pyQuote p.1 ++ ": " ++ toString p.2)) ++ "\x7d"

/-- Python `repr`/`str` of a `repeat_count` value inside a dict repr. -/
def pyReprRepeat : RepeatCount → String
  | .int n => toString n
  | .str s => pyQuote s

/-- Python `str` of a raw `GroupTypes` member. -/
def pyStrGroupMember : GroupTypes → String
  | .group => "GroupTypes.group"
  | .«repeat» => "GroupTypes.repeat"

/-- Python `repr` of the `type` value of a group dict. -/
def pyReprGroupType : PyGroupType → String
  | .ofStr s => pyQuote s
  | .member m => pyStrGroupMember m

/-- Python `repr` of an optional numeric field. -/
def pyReprOptInt : Option Int → String
  | Option.none => "None"
  | Option.some n => toString n

/-- Python `repr` of an optional `parameters` dict. -/
def pyReprOptParams : Option (List (String × Int)) → String
  | Option.none => "None"
  | Option.some ps => pyReprParamsDict ps

/-- Python `repr` of an optional `repeat_count`. -/
def pyReprOptRepeat : Option RepeatCount → String
  | Option.none => "None"
  | Option.some rc => pyReprRepeat rc

/-- Python `repr` of `Question.dict()` (keys in field order). -/
def pyReprQuestionDict (q : Question) : String :=
  "\x7b" ++ pyQuote "type" ++ ": " ++ pyQuote q.type ++ ", "
    ++ pyQuote "name" ++ ": " ++ pyQuote q.name ++ ", "
    ++ pyQuote "label" ++ ": " ++ pyQuote q.label ++ ", "
    ++ pyQuote "required" ++ ": " ++ pyReprOptBool q.required ++ ", "
    ++ pyQuote "default" ++ ": " ++ pyReprOptStr q.default ++ ", "
    ++ pyQuote "hint" ++ ": " ++ pyReprOptStr q.hint ++ ", "
    ++ pyQuote "logics" ++ ": " ++ pyReprOptLogics q.logics ++ ", "
    ++ pyQuote "calculation" ++ ": " ++ pyReprOptStr q.calculation ++ ", "
    ++ pyQuote "range" ++ ": "
      ++ (match q.range with
          | Option.none => "None"
          | Option.some r => pyReprRangeDict r) ++ ", "
    ++ pyQuote "accuracyThreshold" ++ ": " ++ pyReprOptInt q.accuracyThreshold ++ ", "
    ++ pyQuote "choices" ++ ": " ++ pyReprOptChoices q.choices ++ ", "
    ++ pyQuote "allow_other" ++ ": " ++ pyReprOptBool q.allow_other ++ ", "
    ++ pyQuote "file" ++ ": " ++ pyReprOptStr q.file ++ ", "
    ++ pyQuote "parameters" ++ ": " ++ pyReprOptParams q.parameters ++ ", "
    ++ pyQuote "appearance_attributes" ++ ": "
      ++ pyReprOptStr q.appearance_attributes ++ "\x7d"

mutual
/-- Python `repr` of one item dict inside a group `items` list. -/
def pyReprItemDict : Item → String
  | .question q => pyReprQuestionDict q
  | .group (.mk t n l items lg rc) =>
    "\x7b" ++ pyQuote "type" ++ ": " ++ pyReprGroupType t ++ ", "
      ++ pyQuote "name" ++ ": " ++ pyQuote n ++ ", "
      ++ pyQuote "label" ++ ": " ++ pyQuote l ++ ", "
      ++ pyQuote "items" ++ ": [" ++ pyReprItemList items ++ "], "
      ++ pyQuote "logics" ++ ": " ++ pyReprOptLogics lg ++ ", "
      ++ pyQuote "repeat_count" ++ ": " ++ pyReprOptRepeat rc ++ "\x7d"

/-- Comma-joined Python `repr` of an `items` list. -/
def pyReprItemList : List Item → String
  | [] => ""
  | [x] => pyReprItemDict x
  | x :: xs => pyReprItemDict x ++ ", " ++ pyReprItemList xs
end

/-- Python `str()` of a cell value, as applied by `astype(str)`. -/
def pythonStr : Cell → String
  | .none => "None"
  | .str s => s
  | .bool b => pyReprBool b
  | .int n => toString n
  | .choiceList cs => pyReprList (cs.map pyReprChoiceDict)
  | .logicList ls => pyReprList (ls.map pyReprLogicDict)
  | .rangeDict r => pyReprRangeDict r
  | .paramsDict ps => pyReprParamsDict ps
  | .repeatVal rc =>
    (match rc with
     | .int n => toString n
     | .str s => s)
  | .gmember m => pyStrGroupMember m
  | .itemList xs => "[" ++ pyReprItemList xs ++ "]"

/-- A pandas DataFrame: a column list and rows of cells (each row has one
cell per column). -/
structure DataFrame where
  cols : List String
  rows : List (List Cell)

/-- Column order of `pd.DataFrame(records)`: union of the record keys in
first-seen order. -/
def recordCols (records : List Row) : List String :=
  records.foldl
    (fun acc r =>
      acc ++ (r.map (fun p => p.1)).filter (fun k => ¬ acc.contains k))
    []

/-- `pd.DataFrame(records)`: missing keys become `NaN`. -/
def dfOfRecords (records : List Row) : DataFrame :=
  let cols := recordCols records
  { cols := cols,
    rows := records.map (fun r => cols.map (fun c => (rowGet r c).getD .none)) }

/-- `df.to_dict("records")`: every record carries every column (missing
values as `NaN`). -/
def dfRecords (df : DataFrame) : List Row :=
  df.rows.map (fun r => df.cols.zip r)

/-- `df.dropna(axis=1, how="all")`: keep the columns that have at least one
non-missing cell. -/
def dropAllNoneCols (df : DataFrame) : DataFrame :=
  let keep := (List.range df.cols.length).filter
    (fun i => df.rows.any (fun r => ¬ isNoneCell (r.getD i .none)))
  { cols := keep.filterMap (fun i => df.cols.get? i),
    rows := df.rows.map (fun r => keep.filterMap (fun i => r.get? i)) }

/-- `df.dropna(axis=0, how="all")`: keep the rows that have at least one
non-missing cell. -/
def dropAllNoneRows (df : DataFrame) : DataFrame :=
  { df with rows := df.rows.filter (fun r => r.any (fun c => ¬ isNoneCell c)) }

/-- `df.fillna("")`. -/
def fillnaCell : Cell → Cell
  | .none => .str ""
  | c => c

/-- `df.astype(str)`. -/
def astypeStrCell (c : Cell) : Cell := .str (pythonStr c)

/-- `df.replace({"[]": "", "{}": ""}, regex=False)`. -/
def replaceBracketsCell (c : Cell) : Cell :=
  match c with
  | .str s => if s = "[]" ∨ s = "\x7b\x7d" then .str "" else c
  | _ => c

/-- `df.replace({"": None, True: "yes", False: "no"}, regex=False)`.  The
`True`/`False` keys only match *boolean* cells; after `astype(str)` every
cell is a string, so those two mappings cannot fire in `prep_for_excel`. -/
def replaceEmptyBoolCell (c : Cell) : Cell :=
  match c with
  | .str "" => .none
  | .bool true => .str "yes"
  | .bool false => .str "no"
  | _ => c

/-- Function `prep_for_excel`: `fillna("") . astype(str)
. replace({"[]": "", "{}": ""}) . replace({"": None, True: "yes", False: "no"})
. dropna(axis=1, how="all")`, applied cell-wise in that order. -/
def prep_for_excel (df : DataFrame) : DataFrame :=
  dropAllNoneCols
    { cols := df.cols,
      rows := df.rows.map (List.map
        (fun c => replaceEmptyBoolCell (replaceBracketsCell (astypeStrCell (fillnaCell c))))) }

/-- Optional-string field of a model dict. -/
def cellOfOptStr : Option String → Cell
  | Option.none => .none
  | Option.some s => .str s

/-- Optional-bool field of a model dict. -/
def cellOfOptBool : Option Bool → Cell
  | Option.none => .none
  | Option.some b => .bool b

/-- Optional-number field of a model dict. -/
def cellOfOptInt : Option Int → Cell
  | Option.none => .none
  | Option.some n => .int n

/-- The `Question.dict()` row (all fields, `None` included, in field order). -/
def rowOfQuestion (q : Question) : Row :=
  [("type", .str q.type),
   ("name", .str q.name),
   ("label", .str q.label),
   ("required", cellOfOptBool q.required),
   ("default", cellOfOptStr q.default),
   ("hint", cellOfOptStr q.hint),
   ("logics", match q.logics with
              | Option.none => .none
              | Option.some ls => .logicList ls),
   ("calculation", cellOfOptStr q.calculation),
   ("range", match q.range with
             | Option.none => .none
             | Option.some r => .rangeDict r),
   ("accuracyThreshold", cellOfOptInt q.accuracyThreshold),
   ("choices", match q.choices with
               | Option.none => .none
               | Option.some cs => .choiceList cs),
   ("allow_other", cellOfOptBool q.allow_other),
   ("file", cellOfOptStr q.file),
   ("parameters", match q.parameters with
                  | Option.none => .none
                  | Option.some ps => .paramsDict ps),
   ("appearance_attributes", cellOfOptStr q.appearance_attributes)]

/-- The `type` cell of a group dict. -/
def cellOfGroupType : PyGroupType → Cell
  | .ofStr s => .str s
  | .member m => .gmember m

/-- The `QuestionGroup.dict()` row (all fields, `items` included, in field
order). -/
def rowOfGroup (t : PyGroupType) (n l : String) (items : List Item)
    (lg : Option (List Logic)) (rc : Option RepeatCount) : Row :=
  [("type", cellOfGroupType t),
   ("name", .str n),
   ("label", .str l),
   ("items", .itemList items),
   ("logics", match lg with
              | Option.none => .none
              | Option.some ls => .logicList ls),
   ("repeat_count", match rc with
                    | Option.none => .none
                    | Option.some r => .repeatVal r)]

mutual
/-- One iteration of the `for item in items` loop of `items_to_dfs`,
returning the survey rows and choices rows the item contributes.  The source
branches on `item_dict["type"]`:

- group dicts with string type `"repeat"`/`"group"`: `del item_dict["items"]`,
  `update({"type": f"begin {type}"})`, `append`; recurse into `item.items`
  through DataFrames (`to_dict("records")` materializes fresh child dicts);
  `update({"type": f"end {type}"})`, `append`.  Both appends store a
  *reference* to the same `item_dict`, and the second `update` mutates it in
  place, so by the time `pd.DataFrame(survey_rows)` materializes the rows the
  begin marker has been overwritten: both rows carry `"end {type}"`.
- question dicts with type `"rank"`/`"select_one"`/`"select_multiple"`:
  `del item_dict["choices"]`, type becomes `"{type} {item.name}"`, and one
  choices row `{list_name, name, label}` is appended per choice in order.
- a question dict whose type string is `"repeat"`/`"group"` would hit
  `del item_dict["items"]` with no such key (`KeyError`); a group dict whose
  string type is in the select trio would hit `del item_dict["choices"]`
  (`KeyError`); a group whose `type` holds a raw `GroupTypes` member matches
  no string branch and is emitted as a single full-dict row. -/
def item_to_rows : Item → Except String (List Row × List Row)
  | .question q =>
    if q.type = "repeat" ∨ q.type = "group" then
      throw "KeyError: items"
    else if q.type = "rank" ∨ q.type = "select_one" ∨ q.type = "select_multiple" then
      let list_name := q.name
      let item_dict := rowSet (rowDel (rowOfQuestion q) "choices")
        "type" (.str (q.type ++ " " ++ list_name))
      let choices_rows :=
        match q.choices with
        | Option.none => []
        | Option.some cs => cs.map (fun c =>
            ([("list_name", Cell.str list_name),
              ("name", Cell.str c.value),
              ("label", Cell.str c.label)] : Row))
      pure ([item_dict], choices_rows)
    else
      pure ([rowOfQuestion q], [])
  | .group (.mk t n l items lg rc) =>
    match t with
    | .ofStr s =>
      if s = "repeat" ∨ s = "group" then do
        let item_dict := rowDel (rowOfGroup t n l items lg rc) "items"
        let (child_s, child_c) ← items_to_rows items
        let child_s := dfRecords (dfOfRecords child_s)
        let child_c := dfRecords (dfOfRecords child_c)
        let end_dict := rowSet item_dict "type" (.str ("end " ++ s))
        pure (([end_dict] ++ child_s) ++ [end_dict], child_c)
      else if s = "rank" ∨ s = "select_one" ∨ s = "select_multiple" then
        throw "KeyError: choices"
      else
        pure ([rowOfGroup t n l items lg rc], [])
    | .member _ =>
      pure ([rowOfGroup t n l items lg rc], [])

/-- The full `for item in items` loop of `items_to_dfs`, concatenating the
per-item contributions in order. -/
def items_to_rows : List Item → Except String (List Row × List Row)
  | [] => pure ([], [])
  | item :: rest => do
    let (s1, c1) ← item_to_rows item
    let (s2, c2) ← items_to_rows rest
    pure (s1 ++ s2, c1 ++ c2)
end

/-- Function `items_to_dfs`: the loop above followed by
`pd.DataFrame(survey_rows)` / `pd.DataFrame(choices_rows)`. -/
def items_to_dfs (items : List Item) : Except String (DataFrame × DataFrame) := do
  let (s, c) ← items_to_rows items
  pure (dfOfRecords s, dfOfRecords c)

/-- Method `Survey.get_dfs`: the settings row
`{"form_id": name, "form_title": label}`, `items_to_dfs` on the items, and
`prep_for_excel` over each of the three sheets, returned as
`(survey, choices, settings)`. -/
def Survey.get_dfs (s : Survey) : Except String (DataFrame × DataFrame × DataFrame) := do
  let settings_df := dfOfRecords
    [[("form_id", Cell.str s.name), ("form_title", Cell.str s.label)]]
  let (survey_df, choices_df) ← items_to_dfs s.items
  pure (prep_for_excel survey_df, prep_for_excel choices_df, prep_for_excel settings_df)

/-- Python `str.startswith`, via character lists (kernel-reducible). -/
def strStartsWith (s pre : String) : Bool := pre.toList.isPrefixOf s.toList

/-- Substring search over character lists. -/
def listContainsSub (sub : List Char) : List Char → Bool
  | [] => sub.isEmpty
  | c :: cs => sub.isPrefixOf (c :: cs) || listContainsSub sub cs

/-- Python `in` on strings (substring containment). -/
def strContainsSub (s sub : String) : Bool := listContainsSub sub.toList s.toList

/-- Python `str.split()` with no argument: split on whitespace, discarding
empty tokens. -/
def pySplitWs (s : String) : List String :=
  ((s.toList.splitOnP (fun c => c = ' ' ∨ c = '\t' ∨ c = '\n' ∨ c = '\r')).filter
    (fun w => ¬ w.isEmpty)).map String.mk

/-- Python slicing `s[n:]`, by characters. -/
def strDrop (s : String) (n : Nat) : String := String.mk (s.toList.drop n)

/-- pydantic v1 coercion to `str` (`str_validator`): strings pass through,
numbers (bools are ints in Python) are stringified, anything else is
rejected. -/
def cellToStr : Cell → Except String String
  | .str s => pure s
  | .int n => pure (toString n)
  | .bool b => pure (pyReprBool b)
  | _ => throw "str type expected"

/-- pydantic v1 coercion to `bool` (`bool_validator`): bools, `0`/`1`, and
the usual token strings, case-insensitively. -/
def cellToBool : Cell → Except String Bool
  | .bool b => pure b
  | .int 0 => pure false
  | .int 1 => pure true
  | .str s =>
    let t := s.toLower
    if ["1", "on", "t", "true", "y", "yes"].contains t then pure true
    else if ["0", "off", "f", "false", "n", "no"].contains t then pure false
    else throw "value could not be parsed to a boolean"
  | _ => throw "value could not be parsed to a boolean"

/-- pydantic v1 coercion of a numeric field (modelled over `Int`). -/
def cellToInt : Cell → Except String Int
  | .int n => pure n
  | .bool b => pure (if b then 1 else 0)
  | .str s =>
    match s.toInt? with
    | Option.some n => pure n
    | Option.none => throw "value is not a valid number"
  | _ => throw "value is not a valid number"

/-- Coercion of a `List[Logic]` field: already-validated `Logic` instances
pass through; other cell shapes are rejected. -/
def cellToLogics : Cell → Except String (List Logic)
  | .logicList ls => pure ls
  | _ => throw "value is not a valid list"

/-- Coercion of a `List[Choice]` field. -/
def cellToChoices : Cell → Except String (List Choice)
  | .choiceList cs => pure cs
  | _ => throw "value is not a valid list"

/-- Coercion of the `range` field. -/
def cellToRange : Cell → Except String RangeVal
  | .rangeDict r => pure r
  | _ => throw "value is not a valid dict"

/-- Coercion of the `parameters` field. -/
def cellToParams : Cell → Except String (List (String × Int))
  | .paramsDict ps => pure ps
  | _ => throw "value is not a valid dict"

/-- A required `str` field of `parse_obj`: missing key or `None` value is
rejected, any other value is coerced. -/
def reqStrField (r : Row) (k : String) : Except String String :=
  match rowGet r k with
  | Option.none => throw ("field required: " ++ k)
  | Option.some .none => throw ("none is not an allowed value: " ++ k)
  | Option.some c => cellToStr c

/-- An `Optional` field of `parse_obj`: missing key or `None` value yields
`None`, any other value is coerced with `f`. -/
def optField (r : Row) (k : String) (f : Cell → Except String α) :
    Except String (Option α) :=
  match rowGet r k with
  | Option.none => pure Option.none
  | Option.some .none => pure Option.none
  | Option.some c => (f c).map Option.some

/-- Field coercion of `Question.parse_obj(row)`: each declared field is read
from the row (unknown row keys are ignored, as pydantic does by default) and
coerced per its annotation, yielding the keyword arguments fed to the
validators. -/
def rowToQuestionArgs (r : Row) : Except String QuestionArgs := do
  let type ← reqStrField r "type"
  let name ← reqStrField r "name"
  let label ← reqStrField r "label"
  let required ← optField r "required" cellToBool
  let default ← optField r "default" cellToStr
  let hint ← optField r "hint" cellToStr
  let logics ← optField r "logics" cellToLogics
  let calculation ← optField r "calculation" cellToStr
  let range ← optField r "range" cellToRange
  let accuracyThreshold ← optField r "accuracyThreshold" cellToInt
  let choices ← optField r "choices" cellToChoices
  let allow_other ← optField r "allow_other" cellToBool
  let file ← optField r "file" cellToStr
  let parameters ← optField r "parameters" cellToParams
  let appearance_attributes ← optField r "appearance_attributes" cellToStr
  pure ⟨type, name, label, required, default, hint, logics, calculation,
        range, accuracyThreshold, choices, allow_other, file, parameters,
        appearance_attributes⟩

/-- `Question.parse_obj(row)`: field coercion, then the single validation
pipeline (identical to literal construction). -/
def mkQuestionFromRow (r : Row) : Except String Question := do
  let a ← rowToQuestionArgs r
  mkQuestion a

/-- Helper `drop_nan_dict`: `dropna(axis=0, how="all")`,
`dropna(axis=1, how="all")`, `to_dict("records")`, then each record keeps
only its non-missing values. -/
def drop_nan_dict (df : DataFrame) : List Row :=
  (dfRecords (dropAllNoneCols (dropAllNoneRows df))).map
    (fun r => r.filter (fun p => ¬ isNoneCell p.2))

/-- Rename a column (`choices_df.rename(columns={"name": "value"})`). -/
def renameCol (df : DataFrame) (old new : String) : DataFrame :=
  { df with cols := df.cols.map (fun c => if c == old then new else c) }

/-- Drop a column by name (`df.drop(columns=[k])`). -/
def dfDropCol (df : DataFrame) (k : String) : DataFrame :=
  let keep := (List.range df.cols.length).filter
    (fun i => ¬ (df.cols.getD i "" == k))
  { cols := keep.filterMap (fun i => df.cols.get? i),
    rows := df.rows.map (fun r => keep.filterMap (fun i => r.get? i)) }

/-- The Python-dict key a `list_name` cell groups under.  String cells are
the relevant case; a non-string key is tagged so it can never collide with a
`group_name` token produced by splitting a type string. -/
def cellKey : Cell → String
  | .str s => s
  | c => "\x01" ++ pythonStr c

/-- `Choice.parse_obj` on a choices record (after the `name`→`value`
rename; extra keys ignored). -/
def choiceFromRow (r : Row) : Except String Choice := do
  let value ← reqStrField r "value"
  let label ← reqStrField r "label"
  pure ⟨value, label⟩

/-- Helper `get_choice_dict`: rename `name`→`value`, group the rows by their
`list_name` cell (`groupby` raises `KeyError` when the column is absent and
drops missing keys; it sorts the group keys, which is irrelevant here since
the result is a dict queried by key, and keeps within-group row order), and
parse each group, minus its `list_name` column, through `drop_nan_dict` and
`Choice.parse_obj`. -/
def get_choice_dict (choices_df : DataFrame) :
    Except String (List (String × List Choice)) := do
  if ¬ choices_df.cols.contains "list_name" then
    throw "KeyError: list_name"
  let df := renameCol choices_df "name" "value"
  let idx := df.cols.indexOf "list_name"
  let keyOfRow := fun (r : List Cell) => r.getD idx Cell.none
  let keys := df.rows.foldl
    (fun acc r =>
      let c := keyOfRow r
      if isNoneCell c ∨ acc.contains (cellKey c) then acc
      else acc ++ [cellKey c])
    []
  keys.mapM (fun k => do
    let sub : DataFrame :=
      { df with rows := df.rows.filter (fun r => cellKey (keyOfRow r) == k ∧ ¬ isNoneCell (keyOfRow r)) }
    let cs ← (drop_nan_dict (dfDropCol sub "list_name")).mapM choiceFromRow
    pure (k, cs))

/-- Helper `link_choices` of `get_survey_args`: rewrite the composite
`"<type> <list_name>"` of a choice-bearing row into its root type and attach
the matching choice list (`choice_dict.get(group_name, [])`); the tuple
unpacking of `type.split()` fails unless it yields exactly two tokens. -/
def link_choices (choice_dict : List (String × List Choice)) (survey_row : Row) :
    Except String Row := do
  let type ← match rowGet survey_row "type" with
    | Option.none => throw "KeyError: type"
    | Option.some (.str s) => pure s
    | Option.some _ => throw "AttributeError: startswith"
  let type_with_choices := strStartsWith type "rank" || strStartsWith type "select_one"
    || strStartsWith type "select_multiple"
  let not_from_file := ¬ strContainsSub type "from_file"
  if type_with_choices ∧ not_from_file then
    match pySplitWs type with
    | [type_root, group_name] =>
      pure (rowSet (rowSet survey_row "type" (.str type_root)) "choices"
        (.choiceList (((choice_dict.find? (fun p => p.1 == group_name)).map
          (fun p => p.2)).getD [])))
    | _ => throw "ValueError: unpack"
  else
    pure survey_row

/-- One iteration of the `for row in rows` loop of `group_items`.  The state
is the outer `groups` list plus the `current_group`; `current_group` is
always the most recently appended element of `groups` while it is open, so
it is held in the second slot and flushed into the list as soon as it stops
being current (this reproduces the Python aliasing, where
`current_group.items.append(...)` mutates the object already stored in
`groups` in place).

- a `begin` row builds `QuestionGroup(name=row["name"], type=type[6:],
  label=row.get("label"), items=[])` and appends it to `groups`,
  unconditionally making it the new current group;
- an `end` row with an open group closes it (`current_group = None`);
- every other row — including an `end` row with *no* open group — is parsed
  with `Question.parse_obj(row)` and appended to the open group's items, or
  to `groups` when none is open. -/
def group_items_step (st : List Item × Option QuestionGroup) (row : Row) :
    Except String (List Item × Option QuestionGroup) := do
  let (groups, current_group) := st
  let type ← match rowGet row "type" with
    | Option.none => throw "KeyError: type"
    | Option.some (.str s) => pure s
    | Option.some _ => throw "AttributeError: startswith"
  if strStartsWith type "begin" then do
    let group_type := strDrop type 6
    let group_name ← match rowGet row "name" with
      | Option.none => throw "KeyError: name"
      | Option.some c => cellToStr c
    let label ← match rowGet row "label" with
      | Option.none => pure Option.none
      | Option.some .none => pure Option.none
      | Option.some c => (cellToStr c).map Option.some
    let g ← mkQuestionGroup (Option.some group_type) (Option.some group_name)
      label [] Option.none Option.none
    pure (groups ++ (match current_group with
                     | Option.none => []
                     | Option.some old => [Item.group old]),
          Option.some g)
  else if strStartsWith type "end" ∧ current_group.isSome then
    pure (groups ++ (match current_group with
                     | Option.none => []
                     | Option.some old => [Item.group old]),
          Option.none)
  else do
    let q ← mkQuestionFromRow row
    match current_group with
    | Option.some (.mk t n l items lg rc) =>
      pure (groups, Option.some (.mk t n l (items ++ [Item.question q]) lg rc))
    | Option.none =>
      pure (groups ++ [Item.question q], Option.none)

/-- Helper `group_items` of `get_survey_args`: the stateful scan over the
survey rows, returning the outer item list (with a still-open trailing group
flushed into it, where Python's aliasing has already placed it). -/
def group_items (rows : List Row) : Except String (List Item) := do
  let (groups, current) ← rows.foldlM group_items_step ([], Option.none)
  pure (groups ++ (match current with
                   | Option.none => []
                   | Option.some g => [Item.group g]))

/-- Function `get_survey_args` minus the Excel read (it receives the three
sheets as tables): build the choice dict, `drop_nan_dict` + `link_choices` +
`group_items` over the survey rows, then merge the first settings row
(`form_id`→`name`, `form_title`→`label`) and build the `Survey` (whose
`name`/`label` are required `str` fields). -/
def get_survey_args (survey_df choices_df settings_df : DataFrame) :
    Except String Survey := do
  let choice_dict ← get_choice_dict choices_df
  let linked ← (drop_nan_dict survey_df).mapM (link_choices choice_dict)
  let items_grouped ← group_items linked
  let settings_row ← match (dfRecords settings_df).head? with
    | Option.none => throw "IndexError: settings row"
    | Option.some r => pure r
  let name ← match rowGet settings_row "form_id" with
    | Option.none => throw "KeyError: form_id"
    | Option.some c => cellToStr c
  let label ← match rowGet settings_row "form_title" with
    | Option.none => throw "KeyError: form_title"
    | Option.some c => cellToStr c
  pure { name := name, label := label, items := items_grouped }

/-- The tabular round trip `Survey.parse_excel(save_to_excel(s))`:
`Survey.get_dfs` produces the three prepared sheets, the Excel write/read
pair is the identity on them, and `get_survey_args` decodes them. -/
def roundTrip (s : Survey) : Except String Survey := do
  let (survey_df, choices_df, settings_df) ← s.get_dfs
  get_survey_args survey_df choices_df settings_df


/-- A general fact about `Except`: a successful bind factors through a
successful first component. -/
theorem exceptBind_ok {ε α β : Type} {x : Except ε α} {f : α → Except ε β} {b : β}
    (h : x >>= f = .ok b) : ∃ a, x = .ok a ∧ f a = .ok b := by
  cases x with
  | error e => simp [Bind.bind, Except.bind] at h
  | ok a => exact ⟨a, rfl, by simpa [Bind.bind, Except.bind] using h⟩

/-- Keyword arguments of the plain text question used in the examples. -/
def textArgs : QuestionArgs := QuestionArgs.basic "text" "q1" "Q1"

/-- The validated text question those arguments build. -/
def textQ : Question :=
  ⟨"text", "q1", "Q1", none, none, none, none, none, none, none, none, none,
   none, none, none⟩

/-- The choice list of the `select_one` example: `[(r,Red),(b,Blue)]`. -/
def colorChoices : List Choice := [⟨"r", "Red"⟩, ⟨"b", "Blue"⟩]

/-- Keyword arguments of the `select_one` question named `color`. -/
def colorArgs : QuestionArgs :=
  { QuestionArgs.basic "select_one" "color" "Favorite color" with
    choices := some colorChoices }

/-- The validated `select_one` question those arguments build. -/
def colorQ : Question :=
  ⟨"select_one", "color", "Favorite color", none, none, none, none, none,
   none, none, some colorChoices, none, none, none, none⟩

/-- A validated group (explicit `type="group"`) holding the text question and
the `select_one` question. -/
def demoGroup : QuestionGroup :=
  .mk (.ofStr "group") "g1" "G1" [Item.question textQ, Item.question colorQ]
    none none

/-- A validly constructed survey whose single item is that group. -/
def demoSurvey : Survey := ⟨"s", "S", [Item.group demoGroup]⟩

/-- The survey sheet `Survey.get_dfs` produces for `demoSurvey`. -/
def demoSurveySheet : DataFrame :=
  ⟨["type", "name", "label"],
   [[.str "end group", .str "g1", .str "G1"],
    [.str "text", .str "q1", .str "Q1"],
    [.str "select_one color", .str "color", .str "Favorite color"],
    [.str "end group", .str "g1", .str "G1"]]⟩

/-- The choices sheet `Survey.get_dfs` produces for `demoSurvey`. -/
def demoChoicesSheet : DataFrame :=
  ⟨["list_name", "name", "label"],
   [[.str "color", .str "r", .str "Red"],
    [.str "color", .str "b", .str "Blue"]]⟩

/-- The settings sheet `Survey.get_dfs` produces for `demoSurvey`. -/
def demoSettingsSheet : DataFrame :=
  ⟨["form_id", "form_title"], [[.str "s", .str "S"]]⟩

set_option maxRecDepth 400000 in
/-- C1: the round-trip contract `decode(encode(survey)) == survey` fails on
the code.  `demoSurvey` validates successfully (its parts are built by the
constructors, first three conjuncts), yet encoding it emits the group row
*twice with the end marker and never with the begin marker* — `items_to_dfs`
appends `item_dict`, recurses, then mutates the same dict in place to
`"end group"` — so decoding the produced tables hits
`Question.parse_obj({"type": "end group", ...})` and raises
`ValidationError: Invalid question type` instead of returning an equal
Survey. -/
theorem C1_round_trip_fails_on_groups :
    mkQuestion textArgs = .ok textQ ∧
    mkQuestion colorArgs = .ok colorQ ∧
    mkQuestionGroup (some "group") (some "g1") (some "G1")
      [Item.question textQ, Item.question colorQ] none none = .ok demoGroup ∧
    Survey.get_dfs demoSurvey =
      .ok (demoSurveySheet, demoChoicesSheet, demoSettingsSheet) ∧
    roundTrip demoSurvey = .error "Invalid question type" :=
  ⟨rfl, rfl, rfl, rfl, rfl⟩

/-- A decoded survey row `{"type": "begin group", "name": n, "label": l}`. -/
def beginGroupRow (n l : String) : Row :=
  [("type", Cell.str "begin group"), ("name", Cell.str n), ("label", Cell.str l)]

/-- A decoded survey row `{"type": "end group", "name": "g1", "label": "G1"}`. -/
def endGroupRow : Row :=
  [("type", Cell.str "end group"), ("name", Cell.str "g1"), ("label", Cell.str "G1")]

/-- C2 counterexample: on `[begin g1, begin g2]` the second `begin` arrives
while `g1` is open, yet `g2` is appended to the *outer* result list (both
groups come back as empty siblings, `g1.items = []`); the claim predicts a
single outer item (`g1`, with `g2` inside its `items`), so in particular an
outer list of length 1, which is refuted. -/
theorem C2_counterexample :
    group_items [beginGroupRow "g1" "G1", beginGroupRow "g2" "G2"] =
      .ok [Item.group (.mk (.ofStr "group") "g1" "G1" [] none none),
           Item.group (.mk (.ofStr "group") "g2" "G2" [] none none)] ∧
    ¬ ((group_items [beginGroupRow "g1" "G1", beginGroupRow "g2" "G2"]).toOption.map
        (fun items => items.length) = some 1) :=
  ⟨rfl, by decide⟩

/-- C2 (amended): a `begin` row always appends the newly opened group to the
outer result list — never into the currently open group's `items` — and
makes it the new open group; an already-open group is left behind as a
closed empty sibling.  Shown for any two consecutive `begin group` rows. -/
theorem C2_begin_appends_to_outer (n1 l1 n2 l2 : String) :
    group_items [beginGroupRow n1 l1, beginGroupRow n2 l2] =
      .ok [Item.group (.mk (.ofStr "group") n1 l1 [] none none),
           Item.group (.mk (.ofStr "group") n2 l2 [] none none)] := rfl

/-- C2 witness: the amended statement at concrete names. -/
theorem C2_begin_appends_to_outer_witness :
    group_items [beginGroupRow "a" "A1", beginGroupRow "b" "B1"] =
      .ok [Item.group (.mk (.ofStr "group") "a" "A1" [] none none),
           Item.group (.mk (.ofStr "group") "b" "B1" [] none none)] :=
  C2_begin_appends_to_outer "a" "A1" "b" "B1"

set_option maxRecDepth 400000 in
/-- C3 counterexample: an `end group` row with no open group is *not*
ignored — it falls into the question branch and `Question.parse_obj` raises
`Invalid question type`, so decoding stops with an error instead of
proceeding. -/
theorem C3_counterexample :
    group_items [endGroupRow] = .error "Invalid question type" := by rfl

set_option maxRecDepth 400000 in
/-- C3 (amended): an `end` row while no group is open falls through to the
question branch: the row is parsed as a `Question` and appended to the outer
list.  For a composite marker such as `"end group"` this raises
`ValidationError` (the token is not a question type); a bare `"end"` type
happens to be a valid question type and yields a question item. -/
theorem C3_end_row_not_ignored :
    group_items [endGroupRow] = .error "Invalid question type" ∧
    group_items [[("type", Cell.str "end"), ("name", Cell.str "m1"),
                  ("label", Cell.str "M1")]] =
      .ok [Item.question ⟨"end", "m1", "M1", none, none, none, none, none,
                          none, none, none, none, none, none, none⟩] :=
  ⟨by rfl, by rfl⟩

/-- The two-row sheet with boolean `required` cells used for C4. -/
def c4_df : DataFrame :=
  ⟨["type", "name", "label", "required"],
   [[.str "text", .str "q1", .str "Q1", .bool true],
    [.str "note", .str "n1", .str "N1", .bool false]]⟩

/-- C4: `prep_for_excel` does *not* emit booleans as `"yes"`/`"no"`.  The
replace map does contain `True → "yes"` / `False → "no"` (second and third
conjuncts), but `.astype(str)` runs first and turns every boolean cell into
the string `"True"`/`"False"`, which the boolean replace keys no longer
match; the emitted tokens are `"True"`/`"False"` (first conjunct). -/
theorem C4_bools_not_yes_no :
    prep_for_excel c4_df =
      ⟨["type", "name", "label", "required"],
       [[.str "text", .str "q1", .str "Q1", .str "True"],
        [.str "note", .str "n1", .str "N1", .str "False"]]⟩ ∧
    replaceEmptyBoolCell (.bool true) = .str "yes" ∧
    replaceEmptyBoolCell (.bool false) = .str "no" ∧
    astypeStrCell (.bool true) = .str "True" ∧
    astypeStrCell (.bool false) = .str "False" :=
  ⟨rfl, rfl, rfl, rfl, rfl⟩

/-- The single survey row encoding of `colorQ` (the `choices` key deleted,
the other unused fields `None`, column order as in `Question.dict()`). -/
def c5_survey_df : DataFrame :=
  ⟨["type", "name", "label", "required", "default", "hint", "logics",
    "calculation", "range", "accuracyThreshold", "allow_other", "file",
    "parameters", "appearance_attributes"],
   [[.str "select_one color", .str "color", .str "Favorite color",
     .none, .none, .none, .none, .none, .none, .none, .none, .none,
     .none, .none]]⟩

/-- The two choices rows encoding `colorQ`'s choice list, in order. -/
def c5_choices_df : DataFrame :=
  ⟨["list_name", "name", "label"],
   [[.str "color", .str "r", .str "Red"],
    [.str "color", .str "b", .str "Blue"]]⟩

/-- The survey row after `drop_nan_dict` and `link_choices`. -/
def c5_linked_row : Row :=
  [("type", .str "select_one"), ("name", .str "color"),
   ("label", .str "Favorite color"), ("choices", .choiceList colorChoices)]

set_option maxRecDepth 400000 in
/-- C5: encoding the `select_one` question named `color` with choices
`[(r,Red),(b,Blue)]` yields exactly one survey row with
`type = "select_one color"` and no `choices` column, plus the two choices
rows `{list_name: color, name: r, label: Red}`,
`{list_name: color, name: b, label: Blue}` in that order; decoding those
rows back (`get_choice_dict`, `drop_nan_dict`, `link_choices`,
`Question.parse_obj`) rebuilds the original choice list in the original
order — indeed the original question exactly. -/
theorem C5_select_one_choice_encoding :
    mkQuestion colorArgs = .ok colorQ ∧
    items_to_dfs [Item.question colorQ] = .ok (c5_survey_df, c5_choices_df) ∧
    get_choice_dict (prep_for_excel c5_choices_df) = .ok [("color", colorChoices)] ∧
    (drop_nan_dict (prep_for_excel c5_survey_df)).mapM
      (link_choices [("color", colorChoices)]) = .ok [c5_linked_row] ∧
    mkQuestionFromRow c5_linked_row = .ok colorQ :=
  ⟨rfl, rfl, rfl, rfl, rfl⟩

/-- C6: evaluation of `QuestionGroup` construction.  With an explicit
`type="repeat"` the `repeat_count` requirement behaves as claimed (first two
conjuncts), but `QuestionGroup(items=[], repeat_count=2)` — the claim's
third scenario, and the shape of the class docstring's own "standard
question group" example — *fails*: the unvalidated default of the
`str`-typed `type` field is the raw enum member `GroupTypes.group`, and
`hasattr(GroupTypes, member)` raises `TypeError`, which pydantic wraps into
a `ValidationError` (third conjunct).  Even with an explicit `type="group"`,
the forced value is the raw member `GroupTypes.repeat`, not the string
`"repeat"` (fourth conjunct). -/
theorem C6_repeat_invariant_evaluation :
    mkQuestionGroup (some "repeat") (some "g") (some "G") [] none
      (some (.int 3)) = .ok (.mk (.ofStr "repeat") "g" "G" [] none (some (.int 3))) ∧
    mkQuestionGroup (some "repeat") (some "g") (some "G") [] none none =
      .error "repeat_count cannot be None when type == repeat" ∧
    mkQuestionGroup none (some "g") (some "G") [] none (some (.int 2)) =
      .error "TypeError: hasattr(): attribute name must be string" ∧
    mkQuestionGroup (some "group") (some "g") (some "G") [] none
      (some (.int 2)) = .ok (.mk (.member .«repeat») "g" "G" [] none (some (.int 2))) :=
  ⟨rfl, rfl, rfl, rfl⟩

/-- Keyword arguments of the calculate question with its calculation. -/
def calcArgs : QuestionArgs :=
  { QuestionArgs.basic "calculate" "c" "L" with calculation := some "a+b" }

/-- The validated calculate question those arguments build. -/
def calcQ : Question :=
  ⟨"calculate", "c", "L", none, none, none, none, some "a+b", none, none,
   none, none, none, none, none⟩

theorem check_associated_not_mem {α : Type} {type : String} {q_types : List String}
    {fld : String} {v : Option α} {req : Bool} {out : Option α}
    (hmem : ¬ q_types.contains type = true)
    (h : check_associated type q_types fld v req = .ok out) : out = none := by
  unfold check_associated at h
  rw [if_neg hmem] at h
  exact (Except.ok.inj h).symm

theorem contains_singleton_ne {s t : String} (hne : s ≠ t) :
    ¬ ([t] : List String).contains s = true := by
  intro hc
  exact hne (by simpa using hc)

set_option maxRecDepth 400000 in
theorem C7_calculate_rules :
    mkQuestion (QuestionArgs.basic "calculate" "c" "L") =
      .error "calculation required for type calculate" ∧
    mkQuestion calcArgs = .ok calcQ ∧
    (calcQ.range = none ∧ calcQ.choices = none ∧ calcQ.file = none ∧
      calcQ.accuracyThreshold = none) ∧
    (∀ (a : QuestionArgs) (q : Question), a.type ≠ "calculate" →
      mkQuestion a = .ok q → q.calculation = none) := by
  refine ⟨rfl, rfl, ⟨rfl, rfl, rfl, rfl⟩, ?_⟩
  intro a q hne h
  simp only [mkQuestion] at h
  obtain ⟨_, -, h⟩ := exceptBind_ok h
  obtain ⟨_, -, h⟩ := exceptBind_ok h
  obtain ⟨a', ha', h⟩ := exceptBind_ok h
  have hq : questionOfArgs a' = q := Except.ok.inj h
  subst hq
  simp only [validate_by_type] at ha'
  split at ha'
  · obtain ⟨u, hu, -⟩ := exceptBind_ok ha'
    exact absurd hu (by simp [throw, throwThe, MonadExceptOf.throw])
  · obtain ⟨-, -, ha'⟩ := exceptBind_ok ha'
    obtain ⟨cv, hcv, ha'⟩ := exceptBind_ok ha'
    have hcvn : cv = none := check_associated_not_mem (contains_singleton_ne hne) hcv
    obtain ⟨_, -, ha'⟩ := exceptBind_ok ha'
    obtain ⟨_, -, ha'⟩ := exceptBind_ok ha'
    obtain ⟨_, -, ha'⟩ := exceptBind_ok ha'
    obtain ⟨_, -, ha'⟩ := exceptBind_ok ha'
    subst hcvn
    simp only [Bind.bind, Except.bind, pure, Except.pure, Functor.map,
      Except.map, throw, throwThe, MonadExceptOf.throw] at ha'
    repeat split at ha'
    all_goals try simp_all [questionOfArgs]
    all_goals subst ha'
    all_goals rfl

set_option maxRecDepth 400000 in
/-- C7 witness: the universal clause of `C7_calculate_rules` applied to the
text question. -/
theorem C7_calculate_rules_witness :
    textArgs.type ≠ "calculate" ∧ mkQuestion textArgs = .ok textQ ∧
    textQ.calculation = none :=
  ⟨by decide, by rfl, C7_calculate_rules.2.2.2 textArgs textQ (by decide) (by rfl)⟩

set_option maxRecDepth 400000 in
/-- C8: `"SELECT"` is a member of `RESERVED_NAMES` and any `Question`
construction whose `name` argument is `"SELECT"` fails with the reserved-name
`ValidationError`, regardless of the other supplied fields (the `name` field
validator runs before everything else that can fail).  The membership test is
case-sensitive list membership: any name that is not
character-for-character in the list passes `validate_name` unchanged. -/
theorem C8_reserved_name_rejection :
    RESERVED_NAMES.contains "SELECT" = true ∧
    (∀ a : QuestionArgs, a.name = "SELECT" →
      mkQuestion a = .error "SELECT cannot be used as a question name") ∧
    (∀ n : String, ¬ RESERVED_NAMES.contains n = true → validate_name n = .ok n) := by
  refine ⟨by rfl, ?_, ?_⟩
  · intro a h
    simp only [mkQuestion]
    rw [h]
    rfl
  · intro n hn
    unfold validate_name
    rw [if_neg hn]

set_option maxRecDepth 400000 in
/-- C8 witness: `C8_reserved_name_rejection` applied to a concrete
construction with name `"SELECT"` and to the name `"sElEcT"`, which differs
from every list entry character-for-character. -/
theorem C8_reserved_name_rejection_witness :
    mkQuestion (QuestionArgs.basic "text" "SELECT" "L") =
      .error "SELECT cannot be used as a question name" ∧
    validate_name "sElEcT" = .ok "sElEcT" :=
  ⟨C8_reserved_name_rejection.2.1 (QuestionArgs.basic "text" "SELECT" "L") (by rfl),
   C8_reserved_name_rejection.2.2 "sElEcT" (by decide)⟩

set_option maxRecDepth 400000 in
/-- C9: the supplied `appearance_attributes` is accepted or rejected
according to the static compatibility relation:
`("multiline", "text")` is in the relation and the construction succeeds
with the attribute stored; `("multiline", "integer")` is not and the
construction fails; and `("hidden", t)` is in the relation for every
question type `t` (the `hidden_appearance_combos` union), so the appearance
check never rejects `hidden`. -/
theorem C9_appearance_compatibility :
    mkQuestion { QuestionArgs.basic "text" "q1" "Q1" with
                 appearance_attributes := some "multiline" } =
      .ok { textQ with appearance_attributes := some "multiline" } ∧
    mkQuestion { QuestionArgs.basic "integer" "q1" "Q1" with
                 appearance_attributes := some "multiline" } =
      .error "appearance incompatible with question type" ∧
    questionTypeValues.all (fun t => check_appearance_question_combo "hidden" t) = true :=
  ⟨by rfl, by rfl, by rfl⟩

/-- C10: constructing a `Logic` with `type == "constraint"` and no `message`
succeeds with `message == None`; a supplied message is kept for
`"constraint"`; and `message` is never required — the validator only clears
it for every non-`constraint` type. -/
theorem C10_logic_message_never_required :
    (∀ e : String, mkLogic "constraint" e none = ⟨"constraint", e, none⟩) ∧
    (∀ e m : String, mkLogic "constraint" e (some m) = ⟨"constraint", e, some m⟩) ∧
    (∀ (t e : String) (m : Option String), t ≠ "constraint" →
      (mkLogic t e m).message = none) := by
  refine ⟨fun e => rfl, fun e m => rfl, ?_⟩
  intro t e m hne
  unfold mkLogic
  cases m with
  | none => rfl
  | some m' => simp [hne]

/-- C10 witness: `C10_logic_message_never_required` at concrete logics. -/
theorem C10_logic_message_never_required_witness :
    mkLogic "constraint" "x > 0" none = ⟨"constraint", "x > 0", none⟩ ∧
    (mkLogic "skip" "c" (some "msg")).message = none :=
  ⟨(C10_logic_message_never_required.1 "x > 0"),
   C10_logic_message_never_required.2.2 "skip" "c" (some "msg") (by decide)⟩

end XLSForm
